import Mathlib

/-!
Verification of the `lune` task scheduler
(`src/packages/lib/src/lua/task/scheduler.rs`).

The Rust scheduler is embedded shallowly:

* machine state (`TaskScheduler` struct, the Lua registry, the resume
  trace of Lua threads) is passed explicitly;
* fallible operations return `Except Failure α × TaskScheduler`, where
  `Failure` distinguishes recoverable `LuaError`s from Rust panics
  (`panic!`, failed `assert!`, `expect`); state mutations performed
  before a panic are retained in the returned state, mirroring the
  mutations that have already happened when a Rust panic unwinds;
* wall-clock time (`Instant::now`) is a `Nat` counter `now` carried in
  the scheduler state; `Instant::elapsed` is `now - queued_at`;
* the `FuturesUnordered` set is a list of futures tagged with their
  eventual result; `StreamExt::next` on it is modelled as taking the
  head of the list (the scheduler promises no completion order);
  the `sleep` inside delayed/wait futures is abstracted away;
* Lua threads are passive continuations: resuming one records a trace
  event `(thread id, argument list)` and then either yields cleanly or
  raises, according to the thread's `raises` field.

All executions are sequential (the Rust code resumes at most one
continuation at a time); the `Mutex.lock`/`try_lock` calls therefore
always succeed and are not represented.
-/

set_option autoImplicit false

/-- `TaskKind` — the three kinds of tasks of the scheduler. -/
inductive TaskKind
  | instant
  | deferred
  | future
  deriving DecidableEq, Repr

/-- `TaskReference` — pair of a kind and a guid, the external task handle. -/
structure TaskReference where
  kind : TaskKind
  guid : Nat
  deriving DecidableEq, Repr

/-- A Lua thread (coroutine): an id plus its behaviour when resumed —
`none` means it yields/returns cleanly, `some e` means it raises `e`. -/
structure LuaThreadObj where
  id : Nat
  raises : Option String
  deriving DecidableEq, Repr

/-- A Lua value, restricted to the shapes the scheduler inspects. -/
inductive LuaValue
  | nil
  | boolean (b : Bool)
  | number (n : Nat)
  | thread (t : LuaThreadObj)
  | function (raises : Option String)
  | other (tyname : String)
  deriving DecidableEq, Repr

/-- `type_name()` of a Lua value, used in the ArgumentError message. -/
def LuaValue.typeName : LuaValue → String
  | .nil => "nil"
  | .boolean _ => "boolean"
  | .number _ => "number"
  | .thread _ => "thread"
  | .function _ => "function"
  | .other n => n

/-- Whether a value is accepted by `create_task` (thread or function). -/
def LuaValue.isThreadOrFunction : LuaValue → Bool
  | .thread _ => true
  | .function _ => true
  | _ => false

/-- A value stored in the Lua registry: either a stored thread handle or a
stored (optional) argument list, the two shapes `create_task` stores. -/
inductive RegVal
  | thread (t : LuaThreadObj)
  | args (a : Option (List LuaValue))
  deriving DecidableEq, Repr

/-- The embedded Lua interpreter state: the registry (keyed by `Nat`
registry keys), a trace of the keys removed so far, a trace of thread
resumptions `(thread id, argument list)`, and fresh-id counters. -/
structure LuaState where
  nextKey : Nat
  registry : List (Nat × RegVal)
  removedKeys : List Nat
  resumes : List (Nat × List LuaValue)
  nextThread : Nat
  deriving DecidableEq, Repr

/-- `LuneTask` — registry key of the stored thread, registry key of the stored
arguments, and the creation timestamp. -/
structure LuneTask where
  thread : Nat
  args : Nat
  queued_at : Nat
  deriving DecidableEq, Repr

/-- `TaskSchedulerState` — the diagnostic snapshot. -/
structure TaskSchedulerState where
  exit_code : Option Nat
  num_instant : Nat
  num_deferred : Nat
  num_future : Nat
  num_total : Nat
  deriving DecidableEq, Repr

/-- `TaskSchedulerResult` — result of one `resume_queue` step. -/
inductive TaskSchedulerResult
  | finished (state : TaskSchedulerState)
  | taskErrored (error : String) (state : TaskSchedulerState)
  | taskSuccessful (state : TaskSchedulerState)
  deriving DecidableEq, Repr

/-- Eventual outcome of a queued future:
`(TaskReference, LuaResult<Option<Vec<LuaValue>>>)`. -/
inductive TaskFutureResultV
  | ok (args : Option (List LuaValue))
  | err (e : String)
  deriving DecidableEq, Repr

/-- One entry of the `FuturesUnordered` set, tagged with its owning task
reference and its eventual result (the `sleep` is abstracted away). -/
structure TaskFutureEntry where
  ref : TaskReference
  result : TaskFutureResultV
  deriving DecidableEq, Repr

/-- A failure of a scheduler operation: a recoverable `LuaError`, or a
Rust panic (from `panic!`, a failed `assert!`, or `.expect(..)`). -/
inductive Failure
  | luaError (msg : String)
  | panicked (msg : String)
  deriving DecidableEq, Repr

/-- The scheduler struct, together with the embedded Lua state and the
model clock `now`. -/
structure TaskScheduler where
  guid : Nat
  tasks : List (TaskReference × LuneTask)
  futures : List TaskFutureEntry
  task_queue_instant : List TaskReference
  task_queue_deferred : List TaskReference
  exit_code_set : Bool
  exit_code : Nat
  lua : LuaState
  now : Nat
  deriving DecidableEq, Repr

/-! ### Association-list primitives (model of `HashMap`) -/

/-- Lookup in an association list (`HashMap::get`). -/
def alistLookup {κ β : Type} [DecidableEq κ] : List (κ × β) → κ → Option β
  | [], _ => none
  | (k, v) :: rest, key => if k = key then some v else alistLookup rest key

/-- Remove a key from an association list (`HashMap::remove`). -/
def alistErase {κ β : Type} [DecidableEq κ] : List (κ × β) → κ → List (κ × β)
  | [], _ => []
  | (k, v) :: rest, key =>
    if k = key then alistErase rest key else (k, v) :: alistErase rest key

/-- Insert (replacing any previous binding) into an association list
(`HashMap::insert`). -/
def alistInsert {κ β : Type} [DecidableEq κ] (l : List (κ × β)) (key : κ) (v : β) :
    List (κ × β) :=
  (key, v) :: alistErase l key

/-! ### Lua interpreter primitives -/

/-- `Lua::create_registry_value`: allocate a fresh key and store a value. -/
def luaCreateRegistryValue (v : RegVal) (st : LuaState) : Nat × LuaState :=
  (st.nextKey,
   { st with nextKey := st.nextKey + 1, registry := (st.nextKey, v) :: st.registry })

/-- `Lua::remove_registry_value`: drop a stored value, recording the removal
in `removedKeys`; errors when the key does not belong to this registry. -/
def luaRemoveRegistryValue (key : Nat) (st : LuaState) :
    Except Failure Unit × LuaState :=
  match alistLookup st.registry key with
  | some _ =>
    (.ok (),
     { st with registry := alistErase st.registry key,
               removedKeys := st.removedKeys ++ [key] })
  | none => (.error (.luaError "registry key is not owned by this Lua state"), st)

/-- `Lua::registry_value::<LuaThread>`: read a stored thread handle back;
a missing key or a value of the wrong shape is a `LuaError`. -/
def luaRegistryThreadValue (key : Nat) (st : LuaState) :
    Except Failure LuaThreadObj :=
  match alistLookup st.registry key with
  | some (.thread t) => .ok t
  | some (.args _) => .error (.luaError "registry value is not a thread")
  | none => .error (.luaError "registry key is invalid")

/-- `Lua::registry_value::<Option<Vec<LuaValue>>>(..).expect(..)`: read the
stored argument list back; any error makes the `expect` panic. -/
def luaRegistryArgsValue (key : Nat) (st : LuaState) :
    Except Failure (Option (List LuaValue)) :=
  match alistLookup st.registry key with
  | some (.args a) => .ok a
  | some (.thread _) => .error (.panicked "Failed to get stored args for task")
  | none => .error (.panicked "Failed to get stored args for task")

/-- `LuaThread::resume`: record the resumption in the trace, then either
yield cleanly or raise according to the thread's behaviour. -/
def luaThreadResume (t : LuaThreadObj) (args : List LuaValue) (st : LuaState) :
    Except Failure Unit × LuaState :=
  let st1 := { st with resumes := st.resumes ++ [(t.id, args)] }
  match t.raises with
  | some e => (.error (.luaError e), st1)
  | none => (.ok (), st1)

/-- `Lua::create_thread`: wrap a function into a fresh thread. -/
def luaCreateThread (raises : Option String) (st : LuaState) :
    LuaThreadObj × LuaState :=
  ({ id := st.nextThread, raises := raises },
   { st with nextThread := st.nextThread + 1 })

/-! ### Scheduler operations, translated from `scheduler.rs` -/

/-- `TaskScheduler::new` (`ExitCode::SUCCESS` is `0`). -/
def TaskScheduler.new : TaskScheduler :=
  { guid := 0
    tasks := []
    futures := []
    task_queue_instant := []
    task_queue_deferred := []
    exit_code_set := false
    exit_code := 0
    lua := { nextKey := 0, registry := [], removedKeys := [], resumes := [],
             nextThread := 0 }
    now := 0 }

/-- `TaskScheduler::state`: the snapshot of queue lengths and counts.
Sequentially the `try_lock` calls always succeed, so this is total. -/
def TaskScheduler.state (s : TaskScheduler) : TaskSchedulerState :=
  { exit_code := if s.exit_code_set then some s.exit_code else none
    num_instant := s.task_queue_instant.length
    num_deferred := s.task_queue_deferred.length
    num_future := s.futures.length
    num_total := s.tasks.length }

/-- `TaskScheduler::set_exit_code`. -/
def TaskScheduler.set_exit_code (s : TaskScheduler) (code : Nat) : TaskScheduler :=
  { s with exit_code := code, exit_code_set := true }

/-- Advance the model wall clock (passage of time between API calls). -/
def TaskScheduler.advanceTime (s : TaskScheduler) (dt : Nat) : TaskScheduler :=
  { s with now := s.now + dt }

/-- `TaskScheduler::create_task`: get or create a thread from the argument
(anything else is an ArgumentError), store the argument list and the
thread in the registry (in that order), allocate the next guid
(`fetch_add(1) + 1`), timestamp the task and insert it into the store. -/
def TaskScheduler.create_task (s : TaskScheduler) (kind : TaskKind)
    (thread_or_function : LuaValue) (thread_args : Option (List LuaValue)) :
    Except Failure TaskReference × TaskScheduler :=
  let threadRes : Except Failure (LuaThreadObj × LuaState) :=
    match thread_or_function with
    | .thread t => .ok (t, s.lua)
    | .function raises => .ok (luaCreateThread raises s.lua)
    | v =>
      .error (.luaError ("Argument must be a thread or function, got " ++ v.typeName))
  match threadRes with
  | .error e => (.error e, s)
  | .ok (task_thread, lua0) =>
    let task_args_vec : Option (List LuaValue) := thread_args
    let argsCreated := luaCreateRegistryValue (RegVal.args task_args_vec) lua0
    let task_args_key := argsCreated.1
    let threadCreated := luaCreateRegistryValue (RegVal.thread task_thread) argsCreated.2
    let task_thread_key := threadCreated.1
    let guid := s.guid + 1
    let queued_at := s.now
    let task : LuneTask :=
      { thread := task_thread_key, args := task_args_key, queued_at := queued_at }
    let reference : TaskReference := { kind := kind, guid := guid }
    (.ok reference,
     { s with lua := threadCreated.2, guid := s.guid + 1,
              tasks := alistInsert s.tasks reference task })

/-- `VecDeque::insert(1, x)`: place `x` directly behind the front entry.
The source only reaches this under `assert!(queue.len() > 0)`. -/
def insertSecond (q : List TaskReference) (x : TaskReference) : List TaskReference :=
  match q with
  | [] => [x]
  | a :: rest => a :: x :: rest

/-- `TaskScheduler::schedule`: panic on `Future` kind, create the task,
then route it into a lane; `after_current_resume` demands a non-empty
Instant lane (`assert!`) and inserts at position 1, otherwise the task is
pushed at the front; Deferred tasks are appended at the back. -/
def TaskScheduler.schedule (s : TaskScheduler) (kind : TaskKind)
    (thread_or_function : LuaValue) (thread_args : Option (List LuaValue))
    (after_current_resume : Bool) :
    Except Failure TaskReference × TaskScheduler :=
  if kind = TaskKind.future then
    (.error (.panicked "Tried to schedule future using normal task schedule method"), s)
  else
    match s.create_task kind thread_or_function thread_args with
    | (.error e, s1) => (.error e, s1)
    | (.ok task_ref, s1) =>
      match kind with
      | .instant =>
        if after_current_resume then
          if s1.task_queue_instant.length > 0 then
            (.ok task_ref,
             { s1 with task_queue_instant := insertSecond s1.task_queue_instant task_ref })
          else
            (.error (.panicked
               "Cannot schedule a task after the first instant when task queue is empty"),
             s1)
        else
          (.ok task_ref,
           { s1 with task_queue_instant := task_ref :: s1.task_queue_instant })
      | .deferred =>
        (.ok task_ref,
         { s1 with task_queue_deferred := s1.task_queue_deferred ++ [task_ref] })
      | .future => (.error (.panicked "internal error: entered unreachable code"), s1)

/-- `TaskScheduler::schedule_current_resume`. -/
def TaskScheduler.schedule_current_resume (s : TaskScheduler)
    (thread_or_function : LuaValue) (thread_args : List LuaValue) :
    Except Failure TaskReference × TaskScheduler :=
  s.schedule TaskKind.instant thread_or_function (some thread_args) false

/-- `TaskScheduler::schedule_after_current_resume`. -/
def TaskScheduler.schedule_after_current_resume (s : TaskScheduler)
    (thread_or_function : LuaValue) (thread_args : List LuaValue) :
    Except Failure TaskReference × TaskScheduler :=
  s.schedule TaskKind.instant thread_or_function (some thread_args) true

/-- `TaskScheduler::schedule_deferred`. -/
def TaskScheduler.schedule_deferred (s : TaskScheduler)
    (thread_or_function : LuaValue) (thread_args : List LuaValue) :
    Except Failure TaskReference × TaskScheduler :=
  s.schedule TaskKind.deferred thread_or_function (some thread_args) false

/-- `TaskScheduler::schedule_delayed`: create a `Future`-kind task carrying
its argument list, and push a future that (after the abstracted sleep)
resolves with `Ok(None)` — no argument override. -/
def TaskScheduler.schedule_delayed (s : TaskScheduler) (after_secs : Nat)
    (thread_or_function : LuaValue) (thread_args : List LuaValue) :
    Except Failure TaskReference × TaskScheduler :=
  match s.create_task TaskKind.future thread_or_function (some thread_args) with
  | (.error e, s1) => (.error e, s1)
  | (.ok task_ref, s1) =>
    (.ok task_ref,
     { s1 with futures := s1.futures ++ [{ ref := task_ref, result := .ok none }] })

/-- `TaskScheduler::schedule_wait`: like `schedule_delayed` but the task is
created with no stored arguments at all. -/
def TaskScheduler.schedule_wait (s : TaskScheduler) (after_secs : Nat)
    (thread_or_function : LuaValue) :
    Except Failure TaskReference × TaskScheduler :=
  match s.create_task TaskKind.future thread_or_function none with
  | (.error e, s1) => (.error e, s1)
  | (.ok task_ref, s1) =>
    (.ok task_ref,
     { s1 with futures := s1.futures ++ [{ ref := task_ref, result := .ok none }] })

/-- `TaskScheduler::contains_task`. -/
def TaskScheduler.contains_task (s : TaskScheduler) (reference : TaskReference) : Bool :=
  (alistLookup s.tasks reference).isSome

/-- `TaskScheduler::cancel_task`: remove the task from the store if present
and release its two registry values; returns whether anything was removed. -/
def TaskScheduler.cancel_task (s : TaskScheduler) (reference : TaskReference) :
    Except Failure Bool × TaskScheduler :=
  match alistLookup s.tasks reference with
  | none => (.ok false, s)
  | some task =>
    let s1 := { s with tasks := alistErase s.tasks reference }
    match luaRemoveRegistryValue task.thread s1.lua with
    | (.error e, lua1) => (.error e, { s1 with lua := lua1 })
    | (.ok _, lua1) =>
      let s2 := { s1 with lua := lua1 }
      match luaRemoveRegistryValue task.args s2.lua with
      | (.error e, lua2) => (.error e, { s2 with lua := lua2 })
      | (.ok _, lua2) => (.ok true, { s2 with lua := lua2 })

/-- `TaskScheduler::resume_task`: remove the task from the store (a miss is
a silent no-op), read its thread back, choose the resume arguments —
caller override, else stored arguments, else the elapsed time since
creation — resume the thread, then release the two registry values.
A `?`-propagated error (including a raising continuation) returns before
the two releases. -/
def TaskScheduler.resume_task (s : TaskScheduler) (reference : TaskReference)
    (override_args : Option (List LuaValue)) :
    Except Failure Unit × TaskScheduler :=
  match alistLookup s.tasks reference with
  | none => (.ok (), s)
  | some task =>
    let s1 := { s with tasks := alistErase s.tasks reference }
    match luaRegistryThreadValue task.thread s1.lua with
    | .error e => (.error e, s1)
    | .ok thread =>
      let argsRes : Except Failure (Option (List LuaValue)) :=
        match override_args with
        | some a => .ok (some a)
        | none => luaRegistryArgsValue task.args s1.lua
      match argsRes with
      | .error e => (.error e, s1)
      | .ok args =>
        let resumeRes :=
          match args with
          | some a => luaThreadResume thread a s1.lua
          | none =>
            let elapsed := s1.now - task.queued_at
            luaThreadResume thread [LuaValue.number elapsed] s1.lua
        match resumeRes with
        | (.error e, lua1) => (.error e, { s1 with lua := lua1 })
        | (.ok _, lua1) =>
          let s2 := { s1 with lua := lua1 }
          match luaRemoveRegistryValue task.thread s2.lua with
          | (.error e, lua2) => (.error e, { s2 with lua := lua2 })
          | (.ok _, lua2) =>
            let s3 := { s2 with lua := lua2 }
            match luaRemoveRegistryValue task.args s3.lua with
            | (.error e, lua3) => (.error e, { s3 with lua := lua3 })
            | (.ok _, lua3) => (.ok (), { s3 with lua := lua3 })

/-- `TaskScheduler::get_queue` + `VecDeque::pop_front`, fused: pop the front
reference of the lane of the given kind; `Future` kind panics. -/
def TaskScheduler.pop_queue_front (s : TaskScheduler) (kind : TaskKind) :
    Except Failure (Option TaskReference × TaskScheduler) :=
  match kind with
  | .instant =>
    match s.task_queue_instant with
    | [] => .ok (none, s)
    | t :: rest => .ok (some t, { s with task_queue_instant := rest })
  | .deferred =>
    match s.task_queue_deferred with
    | [] => .ok (none, s)
    | t :: rest => .ok (some t, { s with task_queue_deferred := rest })
  | .future => .error (.panicked "Future tasks do not use the normal task queue")

/-- `TaskScheduler::next_queue_future_exists`. -/
def TaskScheduler.next_queue_future_exists (s : TaskScheduler) : Bool :=
  !s.futures.isEmpty

/-- `TaskScheduler::resume_next_queue_task`: pop the lane; an empty pop
reports `Finished` when the store is empty and `TaskSuccessful` otherwise;
a popped reference is resumed, a `LuaError` from the resumption is caught
and reported as `TaskErrored` (a panic propagates). -/
def TaskScheduler.resume_next_queue_task (s : TaskScheduler) (kind : TaskKind)
    (override_args : Option (List LuaValue)) :
    Except Failure TaskSchedulerResult × TaskScheduler :=
  match s.pop_queue_front kind with
  | .error e => (.error e, s)
  | .ok (none, s1) =>
    let status := s1.state
    if status.num_total > 0 then
      (.ok (.taskSuccessful s1.state), s1)
    else
      (.ok (.finished s1.state), s1)
  | .ok (some task, s1) =>
    match s1.resume_task task override_args with
    | (.ok _, s2) => (.ok (.taskSuccessful s2.state), s2)
    | (.error (.luaError task_err), s2) => (.ok (.taskErrored task_err s2.state), s2)
    | (.error (.panicked m), s2) => (.error (.panicked m), s2)

/-- `TaskScheduler::resume_next_queue_future`: take the next completed
future (modelled as the head of the set; panic when the set is empty).
On failure, best-effort cancel the owning task and report `TaskErrored`
with the future's error — or with the cancellation error if cancellation
itself failed. On success, promote the reference to the front of the
Instant lane and resume that lane with the produced arguments as override. -/
def TaskScheduler.resume_next_queue_future (s : TaskScheduler) :
    Except Failure TaskSchedulerResult × TaskScheduler :=
  match s.futures with
  | [] => (.error (.panicked "Tried to resume next queued future but none are queued"), s)
  | fut :: rest =>
    let s1 := { s with futures := rest }
    match fut.result with
    | .err fut_err =>
      match s1.cancel_task fut.ref with
      | (.error (.luaError cancel_err), s2) =>
        (.ok (.taskErrored cancel_err s2.state), s2)
      | (.error (.panicked m), s2) => (.error (.panicked m), s2)
      | (.ok _, s2) => (.ok (.taskErrored fut_err s2.state), s2)
    | .ok args =>
      let s2 := { s1 with task_queue_instant := fut.ref :: s1.task_queue_instant }
      s2.resume_next_queue_task TaskKind.instant args

/-- `TaskScheduler::resume_queue`: one scheduler step — Instant lane first,
then the Deferred lane, then the future set, else `Finished`. -/
def TaskScheduler.resume_queue (s : TaskScheduler) :
    Except Failure TaskSchedulerResult × TaskScheduler :=
  let status := s.state
  if status.num_instant > 0 then
    s.resume_next_queue_task TaskKind.instant none
  else if status.num_deferred > 0 then
    s.resume_next_queue_task TaskKind.deferred none
  else
    if s.next_queue_future_exists then
      s.resume_next_queue_future
    else
      (.ok (.finished s.state), s)

/-! ### Small result classifiers used in theorem statements -/

/-- Whether a step result is `Finished`. -/
def resultIsFinished : Except Failure TaskSchedulerResult → Bool
  | .ok (.finished _) => true
  | _ => false

/-- Whether a step result is `TaskSuccessful`. -/
def resultIsTaskSuccessful : Except Failure TaskSchedulerResult → Bool
  | .ok (.taskSuccessful _) => true
  | _ => false

/-- Whether a step result is `TaskErrored` with the given error. -/
def resultIsTaskErroredWith (e : String) : Except Failure TaskSchedulerResult → Bool
  | .ok (.taskErrored e1 _) => e1 = e
  | _ => false

/-- The argument list `resume_task` passes to the continuation: the caller
override if present, else the stored arguments if present, else the elapsed
time as a single number (the priority of source lines 420–439). -/
def resumeArgsChoice (override_args stored_args : Option (List LuaValue))
    (elapsed : Nat) : List LuaValue :=
  match override_args with
  | some a => a
  | none =>
    match stored_args with
    | some a => a
    | none => [LuaValue.number elapsed]

/-! ### Supporting lemmas -/

theorem alistErase_of_lookup_none {κ β : Type} [DecidableEq κ]
    {l : List (κ × β)} {k : κ} (h : alistLookup l k = none) :
    alistErase l k = l := by
  induction l with
  | nil => rfl
  | cons p rest ih =>
    obtain ⟨k1, v1⟩ := p
    by_cases hk : k1 = k
    · simp [alistLookup, hk] at h
    · simp only [alistLookup, hk, if_neg] at h
      simp [alistErase, hk, ih h]

theorem alistLookup_erase_self {κ β : Type} [DecidableEq κ]
    (l : List (κ × β)) (k : κ) :
    alistLookup (alistErase l k) k = none := by
  induction l with
  | nil => rfl
  | cons p rest ih =>
    obtain ⟨k1, v1⟩ := p
    by_cases hk : k1 = k
    · simpa [alistErase, hk] using ih
    · simpa [alistErase, alistLookup, hk] using ih

theorem alistLookup_insert_self {κ β : Type} [DecidableEq κ]
    (l : List (κ × β)) (k : κ) (v : β) :
    alistLookup (alistInsert l k v) k = some v := by
  simp [alistInsert, alistLookup]

/-- State effects of `resume_task`: whatever the outcome (success, caught
error, or panic), the task is removed from the store and the lane queues,
the future set, the clock and the counters are untouched. -/
theorem resume_task_effects (s : TaskScheduler) (reference : TaskReference)
    (o : Option (List LuaValue)) :
    (s.resume_task reference o).2.tasks = alistErase s.tasks reference ∧
    (s.resume_task reference o).2.task_queue_instant = s.task_queue_instant ∧
    (s.resume_task reference o).2.task_queue_deferred = s.task_queue_deferred ∧
    (s.resume_task reference o).2.futures = s.futures ∧
    (s.resume_task reference o).2.now = s.now ∧
    (s.resume_task reference o).2.guid = s.guid ∧
    (s.resume_task reference o).2.exit_code_set = s.exit_code_set ∧
    (s.resume_task reference o).2.exit_code = s.exit_code := by
  unfold TaskScheduler.resume_task
  cases h : alistLookup s.tasks reference with
  | none =>
    refine ⟨(alistErase_of_lookup_none h).symm, rfl, rfl, rfl, rfl, rfl, rfl, rfl⟩
  | some task =>
    cases hr0 : luaRegistryThreadValue task.thread s.lua with
    | error e0 => simp only [hr0]; simp
    | ok thread =>
      simp only [hr0]
      cases o with
      | some a =>
        rcases hrt : luaThreadResume thread a s.lua with ⟨rt, luaT⟩
        simp only [hrt]
        cases rt with
        | error e1 => simp
        | ok u1 =>
          rcases hm1 : luaRemoveRegistryValue task.thread luaT with ⟨rm1, luaM1⟩
          simp only [hm1]
          cases rm1 with
          | error e2 => simp
          | ok u2 =>
            rcases hm2 : luaRemoveRegistryValue task.args luaM1 with ⟨rm2, luaM2⟩
            simp only [hm2]
            cases rm2 <;> simp
      | none =>
        cases hra : luaRegistryArgsValue task.args s.lua with
        | error ea => simp only [hra]; simp
        | ok aopt =>
          simp only [hra]
          cases aopt with
          | some a =>
            rcases hrt : luaThreadResume thread a s.lua with ⟨rt, luaT⟩
            simp only [hrt]
            cases rt with
            | error e1 => simp
            | ok u1 =>
              rcases hm1 : luaRemoveRegistryValue task.thread luaT with ⟨rm1, luaM1⟩
              simp only [hm1]
              cases rm1 with
              | error e2 => simp
              | ok u2 =>
                rcases hm2 : luaRemoveRegistryValue task.args luaM1 with ⟨rm2, luaM2⟩
                simp only [hm2]
                cases rm2 <;> simp
          | none =>
            rcases hrt : luaThreadResume thread [LuaValue.number (s.now - task.queued_at)] s.lua
              with ⟨rt, luaT⟩
            simp only [hrt]
            cases rt with
            | error e1 => simp
            | ok u1 =>
              rcases hm1 : luaRemoveRegistryValue task.thread luaT with ⟨rm1, luaM1⟩
              simp only [hm1]
              cases rm1 with
              | error e2 => simp
              | ok u2 =>
                rcases hm2 : luaRemoveRegistryValue task.args luaM1 with ⟨rm2, luaM2⟩
                simp only [hm2]
                cases rm2 <;> simp

/-- State effects of `cancel_task`: whatever the outcome, the task is
removed from the store and the lane queues, the future set, the clock and
the counters are untouched; the Lua resume trace is also untouched. -/
theorem cancel_task_effects (s : TaskScheduler) (reference : TaskReference) :
    (s.cancel_task reference).2.tasks = alistErase s.tasks reference ∧
    (s.cancel_task reference).2.task_queue_instant = s.task_queue_instant ∧
    (s.cancel_task reference).2.task_queue_deferred = s.task_queue_deferred ∧
    (s.cancel_task reference).2.futures = s.futures ∧
    (s.cancel_task reference).2.now = s.now ∧
    (s.cancel_task reference).2.guid = s.guid ∧
    (s.cancel_task reference).2.exit_code_set = s.exit_code_set ∧
    (s.cancel_task reference).2.exit_code = s.exit_code ∧
    (s.cancel_task reference).2.lua.resumes = s.lua.resumes := by
  have hrem : ∀ (k : Nat) (st : LuaState),
      (luaRemoveRegistryValue k st).2.resumes = st.resumes := by
    intro k st
    unfold luaRemoveRegistryValue
    split <;> rfl
  unfold TaskScheduler.cancel_task
  cases h : alistLookup s.tasks reference with
  | none =>
    refine ⟨(alistErase_of_lookup_none h).symm, rfl, rfl, rfl, rfl, rfl, rfl, rfl, rfl⟩
  | some task =>
    rcases hr1 : luaRemoveRegistryValue task.thread s.lua with ⟨r1, lua1⟩
    have h1 : lua1.resumes = s.lua.resumes := by rw [← hrem task.thread s.lua, hr1]
    rcases hr2 : luaRemoveRegistryValue task.args lua1 with ⟨r2, lua2⟩
    have h2 : lua2.resumes = lua1.resumes := by rw [← hrem task.args lua1, hr2]
    simp only [hr1]
    cases r1 with
    | error e1 => simp [h1]
    | ok u1 =>
      simp only [hr2]
      cases r2 with
      | error e2 => simp [h1, h2]
      | ok u2 => simp [h1, h2]

/-- Stepping a non-empty Instant lane: the front reference is popped and
its task removed from the store; the other structures are untouched; the
result is never `Finished`. -/
theorem resume_next_queue_task_cons_instant (s : TaskScheduler)
    (r : TaskReference) (rest : List TaskReference) (o : Option (List LuaValue))
    (h : s.task_queue_instant = r :: rest) :
    (s.resume_next_queue_task TaskKind.instant o).2.tasks = alistErase s.tasks r ∧
    (s.resume_next_queue_task TaskKind.instant o).2.task_queue_instant = rest ∧
    (s.resume_next_queue_task TaskKind.instant o).2.task_queue_deferred
      = s.task_queue_deferred ∧
    (s.resume_next_queue_task TaskKind.instant o).2.futures = s.futures ∧
    (∀ st, (s.resume_next_queue_task TaskKind.instant o).1
      ≠ Except.ok (TaskSchedulerResult.finished st)) := by
  have heff := resume_task_effects { s with task_queue_instant := rest } r o
  have hpop : s.pop_queue_front TaskKind.instant
      = .ok (some r, { s with task_queue_instant := rest }) := by
    unfold TaskScheduler.pop_queue_front
    rw [h]
  unfold TaskScheduler.resume_next_queue_task
  rw [hpop]
  rcases hrt : TaskScheduler.resume_task { s with task_queue_instant := rest } r o
    with ⟨rr, s2⟩
  rw [hrt] at heff
  cases rr with
  | ok u => simp_all [hrt]
  | error f => cases f <;> simp_all [hrt]

/-- Stepping a non-empty Deferred lane: the front reference is popped and
its task removed from the store; the other structures are untouched; the
result is never `Finished`. -/
theorem resume_next_queue_task_cons_deferred (s : TaskScheduler)
    (r : TaskReference) (rest : List TaskReference) (o : Option (List LuaValue))
    (h : s.task_queue_deferred = r :: rest) :
    (s.resume_next_queue_task TaskKind.deferred o).2.tasks = alistErase s.tasks r ∧
    (s.resume_next_queue_task TaskKind.deferred o).2.task_queue_deferred = rest ∧
    (s.resume_next_queue_task TaskKind.deferred o).2.task_queue_instant
      = s.task_queue_instant ∧
    (s.resume_next_queue_task TaskKind.deferred o).2.futures = s.futures ∧
    (∀ st, (s.resume_next_queue_task TaskKind.deferred o).1
      ≠ Except.ok (TaskSchedulerResult.finished st)) := by
  have heff := resume_task_effects { s with task_queue_deferred := rest } r o
  have hpop : s.pop_queue_front TaskKind.deferred
      = .ok (some r, { s with task_queue_deferred := rest }) := by
    unfold TaskScheduler.pop_queue_front
    rw [h]
  unfold TaskScheduler.resume_next_queue_task
  rw [hpop]
  rcases hrt : TaskScheduler.resume_task { s with task_queue_deferred := rest } r o
    with ⟨rr, s2⟩
  rw [hrt] at heff
  cases rr with
  | ok u => simp_all [hrt]
  | error f => cases f <;> simp_all [hrt]

/-- Awaiting a non-empty future set: the completed future is consumed and
its owning task removed from the store; both lane queues are unchanged at
the end of the step; the result is never `Finished`. -/
theorem resume_next_queue_future_effects (s : TaskScheduler)
    (fut : TaskFutureEntry) (rest : List TaskFutureEntry)
    (h : s.futures = fut :: rest) :
    (s.resume_next_queue_future).2.tasks = alistErase s.tasks fut.ref ∧
    (s.resume_next_queue_future).2.futures = rest ∧
    (s.resume_next_queue_future).2.task_queue_instant = s.task_queue_instant ∧
    (s.resume_next_queue_future).2.task_queue_deferred = s.task_queue_deferred ∧
    (∀ st, (s.resume_next_queue_future).1
      ≠ Except.ok (TaskSchedulerResult.finished st)) := by
  unfold TaskScheduler.resume_next_queue_future
  simp only [h]
  cases hres : fut.result with
  | err e =>
    have heff := cancel_task_effects { s with futures := rest } fut.ref
    rcases hc : TaskScheduler.cancel_task { s with futures := rest } fut.ref
      with ⟨rc, s2⟩
    rw [hc] at heff
    simp only [hc]
    cases rc with
    | ok b => simp_all
    | error f => cases f <;> simp_all
  | ok args =>
    have hcons := resume_next_queue_task_cons_instant
      { s with futures := rest,
               task_queue_instant := fut.ref :: s.task_queue_instant }
      fut.ref s.task_queue_instant args rfl
    simp_all

/-- `resume_queue` yields `Finished` exactly when both lane queues and the
future set are empty at the time of the call; the snapshot it carries is
then the current state. -/
theorem resume_queue_finished_iff (s : TaskScheduler) (st : TaskSchedulerState) :
    (s.resume_queue).1 = Except.ok (TaskSchedulerResult.finished st) ↔
    (s.task_queue_instant = [] ∧ s.task_queue_deferred = [] ∧ s.futures = [] ∧
     st = s.state) := by
  unfold TaskScheduler.resume_queue
  cases hi : s.task_queue_instant with
  | cons r rest =>
    have := (resume_next_queue_task_cons_instant s r rest none hi).2.2.2.2 st
    simp_all [TaskScheduler.state]
  | nil =>
    cases hd : s.task_queue_deferred with
    | cons r rest =>
      have := (resume_next_queue_task_cons_deferred s r rest none hd).2.2.2.2 st
      simp_all [TaskScheduler.state]
    | nil =>
      cases hf : s.futures with
      | cons fut rest =>
        have := (resume_next_queue_future_effects s fut rest hf).2.2.2.2 st
        simp_all [TaskScheduler.state, TaskScheduler.next_queue_future_exists]
      | nil =>
        simp_all [TaskScheduler.state, TaskScheduler.next_queue_future_exists]
        constructor
        · intro heq
          exact heq.symm
        · intro heq
          exact heq.symm

/-- With a non-empty Instant lane, `resume_queue` steps the Instant lane. -/
theorem resume_queue_eq_instant (s : TaskScheduler) (r : TaskReference)
    (rest : List TaskReference) (h : s.task_queue_instant = r :: rest) :
    s.resume_queue = s.resume_next_queue_task TaskKind.instant none := by
  unfold TaskScheduler.resume_queue
  simp [TaskScheduler.state, h]

/-- With an empty Instant lane and a non-empty Deferred lane, `resume_queue`
steps the Deferred lane. -/
theorem resume_queue_eq_deferred (s : TaskScheduler) (r : TaskReference)
    (rest : List TaskReference) (hi : s.task_queue_instant = [])
    (hd : s.task_queue_deferred = r :: rest) :
    s.resume_queue = s.resume_next_queue_task TaskKind.deferred none := by
  unfold TaskScheduler.resume_queue
  simp [TaskScheduler.state, hi, hd]

/-- With both lanes empty and a non-empty future set, `resume_queue` awaits
the future set. -/
theorem resume_queue_eq_future (s : TaskScheduler) (f : TaskFutureEntry)
    (fs : List TaskFutureEntry) (hi : s.task_queue_instant = [])
    (hd : s.task_queue_deferred = []) (hf : s.futures = f :: fs) :
    s.resume_queue = s.resume_next_queue_future := by
  unfold TaskScheduler.resume_queue
  simp [TaskScheduler.state, hi, hd, TaskScheduler.next_queue_future_exists, hf]

/-- A store miss makes `resume_task` a silent no-op. -/
theorem resume_task_miss (s : TaskScheduler) (reference : TaskReference)
    (o : Option (List LuaValue)) (h : alistLookup s.tasks reference = none) :
    s.resume_task reference o = (Except.ok (), s) := by
  unfold TaskScheduler.resume_task
  rw [h]

/-- A store miss makes `cancel_task` return `false` without touching anything. -/
theorem cancel_task_miss (s : TaskScheduler) (reference : TaskReference)
    (h : alistLookup s.tasks reference = none) :
    s.cancel_task reference = (Except.ok false, s) := by
  unfold TaskScheduler.cancel_task
  rw [h]

/-- Popping a stale reference from the Instant lane: the step is a vacuous
`TaskSuccessful` and no continuation is resumed. -/
theorem resume_next_queue_task_stale_instant (s : TaskScheduler)
    (r : TaskReference) (rest : List TaskReference) (o : Option (List LuaValue))
    (hq : s.task_queue_instant = r :: rest)
    (hmiss : alistLookup s.tasks r = none) :
    s.resume_next_queue_task TaskKind.instant o =
      (Except.ok (TaskSchedulerResult.taskSuccessful
         ({ s with task_queue_instant := rest } : TaskScheduler).state),
       { s with task_queue_instant := rest }) := by
  have hpop : s.pop_queue_front TaskKind.instant
      = .ok (some r, { s with task_queue_instant := rest }) := by
    unfold TaskScheduler.pop_queue_front
    rw [hq]
  unfold TaskScheduler.resume_next_queue_task
  rw [hpop]
  simp [resume_task_miss { s with task_queue_instant := rest } r o hmiss]

/-- Popping a stale reference from the Deferred lane: the step is a vacuous
`TaskSuccessful` and no continuation is resumed. -/
theorem resume_next_queue_task_stale_deferred (s : TaskScheduler)
    (r : TaskReference) (rest : List TaskReference) (o : Option (List LuaValue))
    (hq : s.task_queue_deferred = r :: rest)
    (hmiss : alistLookup s.tasks r = none) :
    s.resume_next_queue_task TaskKind.deferred o =
      (Except.ok (TaskSchedulerResult.taskSuccessful
         ({ s with task_queue_deferred := rest } : TaskScheduler).state),
       { s with task_queue_deferred := rest }) := by
  have hpop : s.pop_queue_front TaskKind.deferred
      = .ok (some r, { s with task_queue_deferred := rest }) := by
    unfold TaskScheduler.pop_queue_front
    rw [hq]
  unfold TaskScheduler.resume_next_queue_task
  rw [hpop]
  simp [resume_task_miss { s with task_queue_deferred := rest } r o hmiss]

/-! ### Claim C1 -/

/-- C1, counterexample: schedule one instant task, cancel it (so the Task
Store is empty while its reference is still queued in the Instant lane),
then call `resume_queue`: the store is empty at the time of the call, yet
the result is not `Finished` — refuting "Finished iff the store is empty". -/
theorem c1_counterexample :
    (((TaskScheduler.new.schedule_current_resume (LuaValue.function none) []).2.cancel_task
        { kind := TaskKind.instant, guid := 1 }).2.tasks
      = ([] : List (TaskReference × LuneTask))) ∧
    resultIsFinished ((((TaskScheduler.new.schedule_current_resume
        (LuaValue.function none) []).2.cancel_task
        { kind := TaskKind.instant, guid := 1 }).2.resume_queue).1) = false := by
  exact ⟨rfl, rfl⟩

/-- C1 (amended): `resume_queue` returns `Finished` exactly when the Instant
lane, the Deferred lane and the future set are all empty at the time of the
call — the Task Store is not consulted, so an empty store with a stale lane
entry yields `TaskSuccessful`, not `Finished`. -/
theorem c1_finished_iff_queues_empty (s : TaskScheduler) :
    (∃ st, (s.resume_queue).1 = Except.ok (TaskSchedulerResult.finished st)) ↔
    (s.task_queue_instant = [] ∧ s.task_queue_deferred = [] ∧ s.futures = []) := by
  constructor
  · rintro ⟨st, hst⟩
    have hch := (resume_queue_finished_iff s st).mp hst
    exact ⟨hch.1, hch.2.1, hch.2.2.1⟩
  · rintro ⟨h1, h2, h3⟩
    exact ⟨s.state, (resume_queue_finished_iff s s.state).mpr ⟨h1, h2, h3, rfl⟩⟩

/-- C1, witness: the amended characterization evaluated on the fresh
scheduler, whose lanes and future set are all empty. -/
theorem c1_witness :
    (∃ st, (TaskScheduler.new.resume_queue).1
      = Except.ok (TaskSchedulerResult.finished st)) ↔
    (TaskScheduler.new.task_queue_instant = [] ∧
     TaskScheduler.new.task_queue_deferred = [] ∧
     TaskScheduler.new.futures = []) :=
  c1_finished_iff_queues_empty TaskScheduler.new

/-! ### Claim C8 -/

/-- C8: strict lane priority on every `resume_queue` call — a non-empty
Instant lane is popped (Deferred and the future set untouched); an empty
Instant lane with a non-empty Deferred lane pops the Deferred lane; the
future set is consumed only when both lanes are empty. -/
theorem c8_lane_priority (s : TaskScheduler) (r : TaskReference)
    (rest : List TaskReference) (f : TaskFutureEntry) (fs : List TaskFutureEntry) :
    (s.task_queue_instant = r :: rest →
      (s.resume_queue).2.task_queue_instant = rest ∧
      (s.resume_queue).2.task_queue_deferred = s.task_queue_deferred ∧
      (s.resume_queue).2.futures = s.futures ∧
      (s.resume_queue).2.tasks = alistErase s.tasks r) ∧
    (s.task_queue_instant = [] → s.task_queue_deferred = r :: rest →
      (s.resume_queue).2.task_queue_deferred = rest ∧
      (s.resume_queue).2.task_queue_instant = s.task_queue_instant ∧
      (s.resume_queue).2.futures = s.futures ∧
      (s.resume_queue).2.tasks = alistErase s.tasks r) ∧
    (s.task_queue_instant = [] → s.task_queue_deferred = [] → s.futures = f :: fs →
      (s.resume_queue).2.futures = fs ∧
      (s.resume_queue).2.task_queue_instant = s.task_queue_instant ∧
      (s.resume_queue).2.task_queue_deferred = s.task_queue_deferred ∧
      (s.resume_queue).2.tasks = alistErase s.tasks f.ref) := by
  refine ⟨?_, ?_, ?_⟩
  · intro hi
    rw [resume_queue_eq_instant s r rest hi]
    have hc := resume_next_queue_task_cons_instant s r rest none hi
    exact ⟨hc.2.1, hc.2.2.1, hc.2.2.2.1, hc.1⟩
  · intro hi hd
    rw [resume_queue_eq_deferred s r rest hi hd]
    have hc := resume_next_queue_task_cons_deferred s r rest none hd
    exact ⟨hc.2.1, hc.2.2.1, hc.2.2.2.1, hc.1⟩
  · intro hi hd hf
    rw [resume_queue_eq_future s f fs hi hd hf]
    have hc := resume_next_queue_future_effects s f fs hf
    exact ⟨hc.2.1, hc.2.2.1, hc.2.2.2.1, hc.1⟩

/-- C8, witness: the priority theorem applied to a concrete scheduler whose
Instant lane holds one reference while the Deferred lane and the future
set are also non-empty: the instant entry is popped and the others stay. -/
theorem c8_witness :
    (({ TaskScheduler.new with
        task_queue_instant := [{ kind := TaskKind.instant, guid := 5 }],
        task_queue_deferred := [{ kind := TaskKind.deferred, guid := 6 }],
        futures := [{ ref := { kind := TaskKind.future, guid := 7 },
                      result := TaskFutureResultV.ok none }] } :
          TaskScheduler).resume_queue).2.task_queue_instant = [] ∧
    (({ TaskScheduler.new with
        task_queue_instant := [{ kind := TaskKind.instant, guid := 5 }],
        task_queue_deferred := [{ kind := TaskKind.deferred, guid := 6 }],
        futures := [{ ref := { kind := TaskKind.future, guid := 7 },
                      result := TaskFutureResultV.ok none }] } :
          TaskScheduler).resume_queue).2.task_queue_deferred
      = [{ kind := TaskKind.deferred, guid := 6 }] ∧
    (({ TaskScheduler.new with
        task_queue_instant := [{ kind := TaskKind.instant, guid := 5 }],
        task_queue_deferred := [{ kind := TaskKind.deferred, guid := 6 }],
        futures := [{ ref := { kind := TaskKind.future, guid := 7 },
                      result := TaskFutureResultV.ok none }] } :
          TaskScheduler).resume_queue).2.futures
      = [{ ref := { kind := TaskKind.future, guid := 7 },
           result := TaskFutureResultV.ok none }] := by
  have h := (c8_lane_priority
    { TaskScheduler.new with
      task_queue_instant := [{ kind := TaskKind.instant, guid := 5 }],
      task_queue_deferred := [{ kind := TaskKind.deferred, guid := 6 }],
      futures := [{ ref := { kind := TaskKind.future, guid := 7 },
                    result := TaskFutureResultV.ok none }] }
    { kind := TaskKind.instant, guid := 5 } []
    { ref := { kind := TaskKind.future, guid := 7 },
      result := TaskFutureResultV.ok none } []).1 rfl
  exact ⟨h.1, h.2.1, h.2.2.1⟩

/-! ### Claim C9 -/

/-- C9: after `cancel_task r` has returned `true`, a later `resume_queue`
step that pops `r` from the Instant or the Deferred lane observes a store
miss, reports `TaskSuccessful`, and resumes no continuation (the Lua
resume trace is unchanged); a second `cancel_task r` returns `false`. -/
theorem c9_stale_after_cancel (s : TaskScheduler) (r : TaskReference)
    (hc : (s.cancel_task r).1 = Except.ok true) :
    (∀ rest, (s.cancel_task r).2.task_queue_instant = r :: rest →
      resultIsTaskSuccessful (((s.cancel_task r).2.resume_queue).1) = true ∧
      ((s.cancel_task r).2.resume_queue).2.lua.resumes
        = (s.cancel_task r).2.lua.resumes) ∧
    (∀ rest, (s.cancel_task r).2.task_queue_instant = [] →
      (s.cancel_task r).2.task_queue_deferred = r :: rest →
      resultIsTaskSuccessful (((s.cancel_task r).2.resume_queue).1) = true ∧
      ((s.cancel_task r).2.resume_queue).2.lua.resumes
        = (s.cancel_task r).2.lua.resumes) ∧
    ((s.cancel_task r).2.cancel_task r).1 = Except.ok false := by
  have hmiss : alistLookup (s.cancel_task r).2.tasks r = none := by
    rw [(cancel_task_effects s r).1]
    exact alistLookup_erase_self s.tasks r
  refine ⟨?_, ?_, ?_⟩
  · intro rest hq
    rw [resume_queue_eq_instant (s.cancel_task r).2 r rest hq,
        resume_next_queue_task_stale_instant (s.cancel_task r).2 r rest none hq hmiss]
    exact ⟨rfl, rfl⟩
  · intro rest hi hq
    rw [resume_queue_eq_deferred (s.cancel_task r).2 r rest hi hq,
        resume_next_queue_task_stale_deferred (s.cancel_task r).2 r rest none hq hmiss]
    exact ⟨rfl, rfl⟩
  · rw [cancel_task_miss (s.cancel_task r).2 r hmiss]

/-- C9, witness: schedule one instant task, cancel it (`true`), then the
stale `resume_queue` step is a vacuous `TaskSuccessful` with no thread
resumed, and a second cancellation returns `false`. -/
theorem c9_witness :
    resultIsTaskSuccessful (((((TaskScheduler.new.schedule_current_resume
        (LuaValue.function none) []).2.cancel_task
        { kind := TaskKind.instant, guid := 1 }).2.resume_queue).1)) = true ∧
    ((((TaskScheduler.new.schedule_current_resume
        (LuaValue.function none) []).2.cancel_task
        { kind := TaskKind.instant, guid := 1 }).2.cancel_task
        { kind := TaskKind.instant, guid := 1 }).1) = Except.ok false := by
  have h := c9_stale_after_cancel
    (TaskScheduler.new.schedule_current_resume (LuaValue.function none) []).2
    { kind := TaskKind.instant, guid := 1 } rfl
  exact ⟨(h.1 [] rfl).1, h.2.2⟩

/-! ### Claim C10 -/

/-- C10, counterexample: no `resume_queue` call can produce a `Finished`
result whose snapshot reports a nonzero Instant, Deferred or future count —
refuting "a Finished result's snapshot may report nonzero lane or future
counts". -/
theorem c10_counterexample :
    ¬ ∃ (s : TaskScheduler) (st : TaskSchedulerState),
        (s.resume_queue).1 = Except.ok (TaskSchedulerResult.finished st) ∧
        (st.num_instant ≠ 0 ∨ st.num_deferred ≠ 0 ∨ st.num_future ≠ 0) := by
  rintro ⟨s, st, hst, hbad⟩
  obtain ⟨h1, h2, h3, heq⟩ := (resume_queue_finished_iff s st).mp hst
  subst heq
  rcases hbad with hb | hb | hb <;>
    simp [TaskScheduler.state, h1, h2, h3] at hb

/-- C10 (amended): the snapshot counts are the raw lengths of the lane
queues, the future set and the store, so stale references of cancelled
tasks are counted and the lane/future counts can exceed `num_total`
(concretely after scheduling and cancelling one instant task); but a
`Finished` result always carries zero lane and future counts, since
`resume_queue` only reports `Finished` when those structures are empty. -/
theorem c10_snapshot_counts :
    (∀ s : TaskScheduler,
       s.state.num_instant = s.task_queue_instant.length ∧
       s.state.num_deferred = s.task_queue_deferred.length ∧
       s.state.num_future = s.futures.length ∧
       s.state.num_total = s.tasks.length) ∧
    (((TaskScheduler.new.schedule_current_resume (LuaValue.function none)
        []).2.cancel_task
        { kind := TaskKind.instant, guid := 1 }).2.state.num_instant = 1 ∧
     ((TaskScheduler.new.schedule_current_resume (LuaValue.function none)
        []).2.cancel_task
        { kind := TaskKind.instant, guid := 1 }).2.state.num_total = 0) ∧
    (∀ (s : TaskScheduler) (st : TaskSchedulerState),
       (s.resume_queue).1 = Except.ok (TaskSchedulerResult.finished st) →
       st.num_instant = 0 ∧ st.num_deferred = 0 ∧ st.num_future = 0) := by
  refine ⟨fun s => ⟨rfl, rfl, rfl, rfl⟩, ⟨rfl, rfl⟩, ?_⟩
  intro s st hst
  obtain ⟨h1, h2, h3, heq⟩ := (resume_queue_finished_iff s st).mp hst
  subst heq
  simp [TaskScheduler.state, h1, h2, h3]

/-- C10, witness: on the fresh scheduler the step is `Finished` and the
amended theorem yields its zero lane and future counts. -/
theorem c10_witness :
    TaskScheduler.new.state.num_instant = 0 ∧
    TaskScheduler.new.state.num_deferred = 0 ∧
    TaskScheduler.new.state.num_future = 0 :=
  c10_snapshot_counts.2.2 TaskScheduler.new TaskScheduler.new.state rfl

/-- A successful `create_task` (on a thread or function argument) allocates
guid `s.guid + 1`, stores the argument list under key `s.lua.nextKey` and
the thread under key `s.lua.nextKey + 1`, timestamps the task with the
current clock and inserts it into the store; queues are untouched. -/
theorem create_task_ok (s : TaskScheduler) (kind : TaskKind) (tof : LuaValue)
    (args : Option (List LuaValue)) (h : tof.isThreadOrFunction = true) :
    ∃ lua2, s.create_task kind tof args =
      (Except.ok { kind := kind, guid := s.guid + 1 },
       { s with lua := lua2, guid := s.guid + 1,
                tasks := alistInsert s.tasks { kind := kind, guid := s.guid + 1 }
                  { thread := s.lua.nextKey + 1, args := s.lua.nextKey,
                    queued_at := s.now } }) := by
  cases tof with
  | thread t => exact ⟨_, rfl⟩
  | function raises => exact ⟨_, rfl⟩
  | nil => simp [LuaValue.isThreadOrFunction] at h
  | boolean b => simp [LuaValue.isThreadOrFunction] at h
  | number n => simp [LuaValue.isThreadOrFunction] at h
  | other nm => simp [LuaValue.isThreadOrFunction] at h

/-- A successful `schedule_current_resume` pushes the fresh reference at
the front of the Instant lane. -/
theorem schedule_current_resume_ok (s : TaskScheduler) (tof : LuaValue)
    (args : List LuaValue) (h : tof.isThreadOrFunction = true) :
    ∃ lua2, s.schedule_current_resume tof args =
      (Except.ok { kind := TaskKind.instant, guid := s.guid + 1 },
       { s with lua := lua2, guid := s.guid + 1,
                tasks := alistInsert s.tasks
                  { kind := TaskKind.instant, guid := s.guid + 1 }
                  { thread := s.lua.nextKey + 1, args := s.lua.nextKey,
                    queued_at := s.now },
                task_queue_instant :=
                  { kind := TaskKind.instant, guid := s.guid + 1 }
                    :: s.task_queue_instant }) := by
  obtain ⟨lua2, hct⟩ := create_task_ok s TaskKind.instant tof (some args) h
  refine ⟨lua2, ?_⟩
  unfold TaskScheduler.schedule_current_resume TaskScheduler.schedule
  rw [hct]
  simp

/-- A successful `schedule_after_current_resume` on a non-empty Instant
lane inserts the fresh reference directly behind the lane's front entry. -/
theorem schedule_after_current_resume_ok (s : TaskScheduler) (tof : LuaValue)
    (args : List LuaValue) (r : TaskReference) (rest : List TaskReference)
    (hq : s.task_queue_instant = r :: rest) (h : tof.isThreadOrFunction = true) :
    ∃ lua2, s.schedule_after_current_resume tof args =
      (Except.ok { kind := TaskKind.instant, guid := s.guid + 1 },
       { s with lua := lua2, guid := s.guid + 1,
                tasks := alistInsert s.tasks
                  { kind := TaskKind.instant, guid := s.guid + 1 }
                  { thread := s.lua.nextKey + 1, args := s.lua.nextKey,
                    queued_at := s.now },
                task_queue_instant :=
                  r :: { kind := TaskKind.instant, guid := s.guid + 1 } :: rest }) := by
  obtain ⟨lua2, hct⟩ := create_task_ok s TaskKind.instant tof (some args) h
  refine ⟨lua2, ?_⟩
  unfold TaskScheduler.schedule_after_current_resume TaskScheduler.schedule
  rw [hct]
  simp [hq, insertSecond]

/-! ### Claim C2 -/

/-- C2, counterexample: `schedule_after_current_resume` on a fresh scheduler
(empty Instant lane) does fail — with a panic from the `assert!` — but the
task has already been created and is present in the Task Store when the
failure happens, refuting "no task is created in the task store". -/
theorem c2_counterexample :
    (TaskScheduler.new.schedule_after_current_resume (LuaValue.function none) []).1
      = Except.error (Failure.panicked
          "Cannot schedule a task after the first instant when task queue is empty") ∧
    (TaskScheduler.new.schedule_after_current_resume (LuaValue.function none) []).2.tasks
      ≠ [] := by
  exact ⟨rfl, by decide⟩

/-- C2 (amended): on an empty Instant lane, `schedule_after_current_resume`
(with a thread or function argument) fails with the precondition panic of
the `assert!`, but only after the task has been created: the fresh
reference is present in the Task Store in the state at the failure. -/
theorem c2_after_current_empty_lane (s : TaskScheduler) (tof : LuaValue)
    (args : List LuaValue) (hi : s.task_queue_instant = [])
    (h : tof.isThreadOrFunction = true) :
    (s.schedule_after_current_resume tof args).1
      = Except.error (Failure.panicked
          "Cannot schedule a task after the first instant when task queue is empty") ∧
    alistLookup (s.schedule_after_current_resume tof args).2.tasks
      { kind := TaskKind.instant, guid := s.guid + 1 } ≠ none := by
  obtain ⟨lua2, hct⟩ := create_task_ok s TaskKind.instant tof (some args) h
  unfold TaskScheduler.schedule_after_current_resume TaskScheduler.schedule
  rw [hct]
  simp [hi, alistLookup_insert_self]

/-- C2, witness: the amended statement evaluated on the fresh scheduler. -/
theorem c2_witness :
    (TaskScheduler.new.schedule_after_current_resume (LuaValue.function none) []).1
      = Except.error (Failure.panicked
          "Cannot schedule a task after the first instant when task queue is empty") ∧
    alistLookup (TaskScheduler.new.schedule_after_current_resume
        (LuaValue.function none) []).2.tasks
      { kind := TaskKind.instant, guid := 1 } ≠ none :=
  c2_after_current_empty_lane TaskScheduler.new (LuaValue.function none) [] rfl rfl

/-! ### Claim C3 -/

/-- C3, counterexample: with the Instant lane holding one pending reference
X (guid 1), scheduling A (guid 2) via `schedule_current_resume` and then B
(guid 3) via `schedule_after_current_resume` leaves the lane front-to-back
as [A, B, X], not [X, B, A] as claimed. -/
theorem c3_counterexample :
    (((TaskScheduler.new.schedule_current_resume (LuaValue.function none)
        []).2.schedule_current_resume (LuaValue.function none)
        []).2.schedule_after_current_resume (LuaValue.function none)
        []).2.task_queue_instant
      = [{ kind := TaskKind.instant, guid := 2 },
         { kind := TaskKind.instant, guid := 3 },
         { kind := TaskKind.instant, guid := 1 }] ∧
    (((TaskScheduler.new.schedule_current_resume (LuaValue.function none)
        []).2.schedule_current_resume (LuaValue.function none)
        []).2.schedule_after_current_resume (LuaValue.function none)
        []).2.task_queue_instant
      ≠ [{ kind := TaskKind.instant, guid := 1 },
         { kind := TaskKind.instant, guid := 3 },
         { kind := TaskKind.instant, guid := 2 }] := by
  exact ⟨rfl, by decide⟩

/-- C3 (amended): starting from an Instant lane `[X]`, scheduling A via
`schedule_current_resume` and then B via `schedule_after_current_resume`
leaves the lane in front-to-back order [A, B, X] (equivalently, pop order
A, B, X — the claimed [X, B, A] is this order read back-to-front). -/
theorem c3_lane_order (s : TaskScheduler) (X : TaskReference)
    (tofA tofB : LuaValue) (argsA argsB : List LuaValue)
    (hq : s.task_queue_instant = [X])
    (hA : tofA.isThreadOrFunction = true) (hB : tofB.isThreadOrFunction = true) :
    (s.schedule_current_resume tofA argsA).1
      = Except.ok { kind := TaskKind.instant, guid := s.guid + 1 } ∧
    ((s.schedule_current_resume tofA argsA).2.schedule_after_current_resume
        tofB argsB).1
      = Except.ok { kind := TaskKind.instant, guid := s.guid + 2 } ∧
    ((s.schedule_current_resume tofA argsA).2.schedule_after_current_resume
        tofB argsB).2.task_queue_instant
      = [{ kind := TaskKind.instant, guid := s.guid + 1 },
         { kind := TaskKind.instant, guid := s.guid + 2 }, X] := by
  obtain ⟨luaA, hca⟩ := schedule_current_resume_ok s tofA argsA hA
  obtain ⟨luaB, hcb⟩ := schedule_after_current_resume_ok
    (s.schedule_current_resume tofA argsA).2 tofB argsB
    { kind := TaskKind.instant, guid := s.guid + 1 } [X]
    (by rw [hca, hq]) hB
  rw [hca] at hcb
  rw [hca, hcb]
  exact ⟨rfl, rfl, rfl⟩

/-- C3, witness: the amended ordering evaluated on a concrete scheduler
whose Instant lane holds one pending reference. -/
theorem c3_witness :
    ((((TaskScheduler.new.schedule_current_resume (LuaValue.function none)
        []).2).schedule_current_resume (LuaValue.function none) []).1
      = Except.ok { kind := TaskKind.instant, guid := 2 }) ∧
    (((((TaskScheduler.new.schedule_current_resume (LuaValue.function none)
        []).2).schedule_current_resume (LuaValue.function none)
        []).2.schedule_after_current_resume (LuaValue.function none) []).1
      = Except.ok { kind := TaskKind.instant, guid := 3 }) ∧
    (((((TaskScheduler.new.schedule_current_resume (LuaValue.function none)
        []).2).schedule_current_resume (LuaValue.function none)
        []).2.schedule_after_current_resume (LuaValue.function none)
        []).2.task_queue_instant
      = [{ kind := TaskKind.instant, guid := 2 },
         { kind := TaskKind.instant, guid := 3 },
         { kind := TaskKind.instant, guid := 1 }]) :=
  c3_lane_order (TaskScheduler.new.schedule_current_resume
    (LuaValue.function none) []).2
    { kind := TaskKind.instant, guid := 1 }
    (LuaValue.function none) (LuaValue.function none) [] [] rfl rfl rfl

/-- `remove_registry_value` never touches the resume trace. -/
theorem luaRemoveRegistryValue_resumes (k : Nat) (st : LuaState) :
    (luaRemoveRegistryValue k st).2.resumes = st.resumes := by
  unfold luaRemoveRegistryValue
  split <;> rfl

/-- Resuming a thread appends exactly one event to the resume trace. -/
theorem luaThreadResume_resumes (t : LuaThreadObj) (a : List LuaValue) (st : LuaState) :
    (luaThreadResume t a st).2.resumes = st.resumes ++ [(t.id, a)] := by
  unfold luaThreadResume
  split <;> rfl

/-- Removing a present registry key succeeds, erases it and records it. -/
theorem luaRemoveRegistryValue_hit (k : Nat) (st : LuaState) (v : RegVal)
    (h : alistLookup st.registry k = some v) :
    luaRemoveRegistryValue k st =
      (Except.ok (),
       { st with registry := alistErase st.registry k,
                 removedKeys := st.removedKeys ++ [k] }) := by
  unfold luaRemoveRegistryValue
  rw [h]

/-- Resuming a cleanly-yielding thread succeeds and only extends the trace. -/
theorem luaThreadResume_ok (t : LuaThreadObj) (a : List LuaValue) (st : LuaState)
    (h : t.raises = none) :
    luaThreadResume t a st =
      (Except.ok (), { st with resumes := st.resumes ++ [(t.id, a)] }) := by
  unfold luaThreadResume
  rw [h]

/-- Resuming a raising thread records the event and raises its error. -/
theorem luaThreadResume_raise (t : LuaThreadObj) (a : List LuaValue) (st : LuaState)
    (e : String) (h : t.raises = some e) :
    luaThreadResume t a st =
      (Except.error (Failure.luaError e),
       { st with resumes := st.resumes ++ [(t.id, a)] }) := by
  unfold luaThreadResume
  rw [h]

/-- Resuming a stored task records exactly one resume event, whose argument
list follows the source's priority: caller override, else the stored
arguments, else the elapsed time since the task was queued. -/
theorem resume_task_hit_trace (s : TaskScheduler) (reference : TaskReference)
    (task : LuneTask) (thread : LuaThreadObj) (storedArgs : Option (List LuaValue))
    (o : Option (List LuaValue))
    (h1 : alistLookup s.tasks reference = some task)
    (h2 : alistLookup s.lua.registry task.thread = some (RegVal.thread thread))
    (h3 : alistLookup s.lua.registry task.args = some (RegVal.args storedArgs)) :
    (s.resume_task reference o).2.lua.resumes
      = s.lua.resumes ++ [(thread.id,
          resumeArgsChoice o storedArgs (s.now - task.queued_at))] := by
  have httv : luaRegistryThreadValue task.thread s.lua = Except.ok thread := by
    unfold luaRegistryThreadValue; rw [h2]
  have hargs : luaRegistryArgsValue task.args s.lua = Except.ok storedArgs := by
    unfold luaRegistryArgsValue; rw [h3]
  unfold TaskScheduler.resume_task
  cases hl : alistLookup s.tasks reference with
  | none => rw [hl] at h1; cases h1
  | some task1 =>
    rw [hl] at h1
    injection h1 with h1e
    subst task1
    simp only [httv]
    cases o with
    | some a =>
      rcases hrt : luaThreadResume thread a s.lua with ⟨rt, luaT⟩
      have htr := luaThreadResume_resumes thread a s.lua
      rw [hrt] at htr
      cases rt with
      | error e1 => simp_all [hrt, resumeArgsChoice]
      | ok u1 =>
        rcases hm1 : luaRemoveRegistryValue task.thread luaT with ⟨rm1, luaM1⟩
        have hr1 := luaRemoveRegistryValue_resumes task.thread luaT
        rw [hm1] at hr1
        cases rm1 with
        | error e2 => simp_all [hrt, hm1, resumeArgsChoice]
        | ok u2 =>
          rcases hm2 : luaRemoveRegistryValue task.args luaM1 with ⟨rm2, luaM2⟩
          have hr2 := luaRemoveRegistryValue_resumes task.args luaM1
          rw [hm2] at hr2
          cases rm2 <;> simp_all [hrt, hm1, hm2, resumeArgsChoice]
    | none =>
      simp only [hargs]
      cases storedArgs with
      | some a =>
        rcases hrt : luaThreadResume thread a s.lua with ⟨rt, luaT⟩
        have htr := luaThreadResume_resumes thread a s.lua
        rw [hrt] at htr
        cases rt with
        | error e1 => simp_all [hrt, resumeArgsChoice]
        | ok u1 =>
          rcases hm1 : luaRemoveRegistryValue task.thread luaT with ⟨rm1, luaM1⟩
          have hr1 := luaRemoveRegistryValue_resumes task.thread luaT
          rw [hm1] at hr1
          cases rm1 with
          | error e2 => simp_all [hrt, hm1, resumeArgsChoice]
          | ok u2 =>
            rcases hm2 : luaRemoveRegistryValue task.args luaM1 with ⟨rm2, luaM2⟩
            have hr2 := luaRemoveRegistryValue_resumes task.args luaM1
            rw [hm2] at hr2
            cases rm2 <;> simp_all [hrt, hm1, hm2, resumeArgsChoice]
      | none =>
        rcases hrt : luaThreadResume thread [LuaValue.number (s.now - task.queued_at)] s.lua
          with ⟨rt, luaT⟩
        have htr := luaThreadResume_resumes thread
          [LuaValue.number (s.now - task.queued_at)] s.lua
        rw [hrt] at htr
        cases rt with
        | error e1 => simp_all [hrt, resumeArgsChoice]
        | ok u1 =>
          rcases hm1 : luaRemoveRegistryValue task.thread luaT with ⟨rm1, luaM1⟩
          have hr1 := luaRemoveRegistryValue_resumes task.thread luaT
          rw [hm1] at hr1
          cases rm1 with
          | error e2 => simp_all [hrt, hm1, resumeArgsChoice]
          | ok u2 =>
            rcases hm2 : luaRemoveRegistryValue task.args luaM1 with ⟨rm2, luaM2⟩
            have hr2 := luaRemoveRegistryValue_resumes task.args luaM1
            rw [hm2] at hr2
            cases rm2 <;> simp_all [hrt, hm1, hm2, resumeArgsChoice]

/-! ### Claim C5 -/

/-- C5: `resume_task` on a stored task removes it from the Task Store first
(the store no longer holds the reference afterwards, whatever the outcome
of the resumption), and resumes the continuation with, in priority order:
the caller-supplied override arguments, else the task's stored pending
arguments, else — only when both are absent, i.e. for wait tasks — the
elapsed time since the task's creation as the sole argument. -/
theorem c5_resume_priority (s : TaskScheduler) (reference : TaskReference)
    (task : LuneTask) (thread : LuaThreadObj) (storedArgs : Option (List LuaValue))
    (o : Option (List LuaValue))
    (h1 : alistLookup s.tasks reference = some task)
    (h2 : alistLookup s.lua.registry task.thread = some (RegVal.thread thread))
    (h3 : alistLookup s.lua.registry task.args = some (RegVal.args storedArgs)) :
    (s.resume_task reference o).2.tasks = alistErase s.tasks reference ∧
    (s.resume_task reference o).2.lua.resumes
      = s.lua.resumes ++ [(thread.id,
          resumeArgsChoice o storedArgs (s.now - task.queued_at))] :=
  ⟨(resume_task_effects s reference o).1,
   resume_task_hit_trace s reference task thread storedArgs o h1 h2 h3⟩

/-- C5, witness: a wait task (no override, no stored arguments) queued at
time 0 and resumed at time 5 is removed from the store and resumed with
the elapsed time 5 as its sole argument. -/
theorem c5_witness :
    (TaskScheduler.resume_task
      { guid := 1,
        tasks := [({ kind := TaskKind.future, guid := 1 },
                   { thread := 1, args := 0, queued_at := 0 })],
        futures := [], task_queue_instant := [], task_queue_deferred := [],
        exit_code_set := false, exit_code := 0,
        lua := { nextKey := 2,
                 registry := [(0, RegVal.args none),
                              (1, RegVal.thread { id := 0, raises := none })],
                 removedKeys := [], resumes := [], nextThread := 1 },
        now := 5 }
      { kind := TaskKind.future, guid := 1 } none).2.tasks = [] ∧
    (TaskScheduler.resume_task
      { guid := 1,
        tasks := [({ kind := TaskKind.future, guid := 1 },
                   { thread := 1, args := 0, queued_at := 0 })],
        futures := [], task_queue_instant := [], task_queue_deferred := [],
        exit_code_set := false, exit_code := 0,
        lua := { nextKey := 2,
                 registry := [(0, RegVal.args none),
                              (1, RegVal.thread { id := 0, raises := none })],
                 removedKeys := [], resumes := [], nextThread := 1 },
        now := 5 }
      { kind := TaskKind.future, guid := 1 } none).2.lua.resumes
      = [(0, [LuaValue.number 5])] := by
  have h := c5_resume_priority
    { guid := 1,
      tasks := [({ kind := TaskKind.future, guid := 1 },
                 { thread := 1, args := 0, queued_at := 0 })],
      futures := [], task_queue_instant := [], task_queue_deferred := [],
      exit_code_set := false, exit_code := 0,
      lua := { nextKey := 2,
               registry := [(0, RegVal.args none),
                            (1, RegVal.thread { id := 0, raises := none })],
               removedKeys := [], resumes := [], nextThread := 1 },
      now := 5 }
    { kind := TaskKind.future, guid := 1 }
    { thread := 1, args := 0, queued_at := 0 }
    { id := 0, raises := none } none none rfl rfl rfl
  exact ⟨h.1.trans rfl, h.2.trans rfl⟩

/-- A successful (non-raising) resumption of a stored task releases both of
its registry values, each exactly once — whatever the argument source
(caller override, stored arguments, or elapsed time). -/
theorem resume_task_release_ok (s : TaskScheduler) (reference : TaskReference)
    (task : LuneTask) (thread : LuaThreadObj) (storedArgs : Option (List LuaValue))
    (o : Option (List LuaValue))
    (h1 : alistLookup s.tasks reference = some task)
    (h2 : alistLookup s.lua.registry task.thread = some (RegVal.thread thread))
    (h3 : alistLookup s.lua.registry task.args = some (RegVal.args storedArgs))
    (hra : thread.raises = none)
    (h4 : alistLookup (alistErase s.lua.registry task.thread) task.args ≠ none) :
    (s.resume_task reference o).1 = Except.ok () ∧
    (s.resume_task reference o).2.lua.removedKeys
      = s.lua.removedKeys ++ [task.thread, task.args] := by
  obtain ⟨v2, hv2⟩ := Option.ne_none_iff_exists'.mp h4
  have httv : luaRegistryThreadValue task.thread s.lua = Except.ok thread := by
    unfold luaRegistryThreadValue; rw [h2]
  have hargs : luaRegistryArgsValue task.args s.lua = Except.ok storedArgs := by
    unfold luaRegistryArgsValue; rw [h3]
  have hitm1 : ∀ rs : List (Nat × List LuaValue),
      luaRemoveRegistryValue task.thread { s.lua with resumes := rs }
        = (Except.ok (),
           { s.lua with resumes := rs,
                        registry := alistErase s.lua.registry task.thread,
                        removedKeys := s.lua.removedKeys ++ [task.thread] }) :=
    fun rs => luaRemoveRegistryValue_hit task.thread
      { s.lua with resumes := rs } (RegVal.thread thread) h2
  have hitm2 : ∀ rs : List (Nat × List LuaValue),
      luaRemoveRegistryValue task.args
          { s.lua with resumes := rs,
                       registry := alistErase s.lua.registry task.thread,
                       removedKeys := s.lua.removedKeys ++ [task.thread] }
        = (Except.ok (),
           { s.lua with resumes := rs,
                        registry := alistErase
                          (alistErase s.lua.registry task.thread) task.args,
                        removedKeys :=
                          (s.lua.removedKeys ++ [task.thread]) ++ [task.args] }) :=
    fun rs => luaRemoveRegistryValue_hit task.args
      { s.lua with resumes := rs,
                   registry := alistErase s.lua.registry task.thread,
                   removedKeys := s.lua.removedKeys ++ [task.thread] } v2 hv2
  unfold TaskScheduler.resume_task
  cases hl : alistLookup s.tasks reference with
  | none => rw [hl] at h1; cases h1
  | some task1 =>
    rw [hl] at h1
    injection h1 with h1e
    subst task1
    cases o with
    | some a =>
      simp [httv, luaThreadResume_ok thread a s.lua hra,
            hitm1 (s.lua.resumes ++ [(thread.id, a)]),
            hitm2 (s.lua.resumes ++ [(thread.id, a)])]
    | none =>
      cases storedArgs with
      | some a =>
        simp [httv, hargs, luaThreadResume_ok thread a s.lua hra,
              hitm1 (s.lua.resumes ++ [(thread.id, a)]),
              hitm2 (s.lua.resumes ++ [(thread.id, a)])]
      | none =>
        simp [httv, hargs,
              luaThreadResume_ok thread
                [LuaValue.number (s.now - task.queued_at)] s.lua hra,
              hitm1 (s.lua.resumes
                ++ [(thread.id, [LuaValue.number (s.now - task.queued_at)])]),
              hitm2 (s.lua.resumes
                ++ [(thread.id, [LuaValue.number (s.now - task.queued_at)])])]

/-- A resumption whose continuation raises releases neither registry value:
`resume_task` propagates the error before the two removals — whatever the
argument source (caller override, stored arguments, or elapsed time). -/
theorem resume_task_release_raise (s : TaskScheduler) (reference : TaskReference)
    (task : LuneTask) (thread : LuaThreadObj) (storedArgs : Option (List LuaValue))
    (o : Option (List LuaValue)) (e : String)
    (h1 : alistLookup s.tasks reference = some task)
    (h2 : alistLookup s.lua.registry task.thread = some (RegVal.thread thread))
    (h3 : alistLookup s.lua.registry task.args = some (RegVal.args storedArgs))
    (hra : thread.raises = some e) :
    (s.resume_task reference o).1 = Except.error (Failure.luaError e) ∧
    (s.resume_task reference o).2.lua.removedKeys = s.lua.removedKeys ∧
    (s.resume_task reference o).2.lua.registry = s.lua.registry := by
  have httv : luaRegistryThreadValue task.thread s.lua = Except.ok thread := by
    unfold luaRegistryThreadValue; rw [h2]
  have hargs : luaRegistryArgsValue task.args s.lua = Except.ok storedArgs := by
    unfold luaRegistryArgsValue; rw [h3]
  unfold TaskScheduler.resume_task
  cases hl : alistLookup s.tasks reference with
  | none => rw [hl] at h1; cases h1
  | some task1 =>
    rw [hl] at h1
    injection h1 with h1e
    subst task1
    cases o with
    | some a => simp [httv, luaThreadResume_raise thread a s.lua e hra]
    | none =>
      cases storedArgs with
      | some a => simp [httv, hargs, luaThreadResume_raise thread a s.lua e hra]
      | none =>
        simp [httv, hargs,
              luaThreadResume_raise thread
                [LuaValue.number (s.now - task.queued_at)] s.lua e hra]

/-- A successful cancellation releases both registry values of the removed
task, each exactly once. -/
theorem cancel_task_hit_releases (s : TaskScheduler) (reference : TaskReference)
    (task : LuneTask)
    (h1 : alistLookup s.tasks reference = some task)
    (h2 : alistLookup s.lua.registry task.thread ≠ none)
    (h3 : alistLookup (alistErase s.lua.registry task.thread) task.args ≠ none) :
    (s.cancel_task reference).1 = Except.ok true ∧
    (s.cancel_task reference).2.lua.removedKeys
      = s.lua.removedKeys ++ [task.thread, task.args] := by
  obtain ⟨v1, hv1⟩ := Option.ne_none_iff_exists'.mp h2
  obtain ⟨v2, hv2⟩ := Option.ne_none_iff_exists'.mp h3
  have hitm1 := luaRemoveRegistryValue_hit task.thread s.lua v1 hv1
  have hitm2 := luaRemoveRegistryValue_hit task.args
    { s.lua with registry := alistErase s.lua.registry task.thread,
                 removedKeys := s.lua.removedKeys ++ [task.thread] } v2 hv2
  unfold TaskScheduler.cancel_task
  cases hl : alistLookup s.tasks reference with
  | none => rw [hl] at h1; cases h1
  | some task1 =>
    rw [hl] at h1
    injection h1 with h1e
    subst task1
    simp [hitm1, hitm2]

/-! ### Claim C4 -/

/-- C4, counterexample: one instant task whose continuation raises on
resumption; the `resume_queue` step removes it from the store (an actual
removal path) and reports `TaskErrored`, yet neither its thread key (1)
nor its args key (0) is ever released: the removal trace stays empty and
both keys are still in the registry — refuting "released exactly once on
every removal path including a resumption that raises an error". -/
theorem c4_counterexample :
    resultIsTaskErroredWith "boom" (((TaskScheduler.new.schedule_current_resume
        (LuaValue.function (some "boom")) []).2.resume_queue).1) = true ∧
    ((TaskScheduler.new.schedule_current_resume
        (LuaValue.function (some "boom")) []).2.resume_queue).2.tasks = [] ∧
    ((TaskScheduler.new.schedule_current_resume
        (LuaValue.function (some "boom")) []).2.resume_queue).2.lua.removedKeys = [] ∧
    alistLookup ((TaskScheduler.new.schedule_current_resume
        (LuaValue.function (some "boom")) []).2.resume_queue).2.lua.registry 1
      ≠ none ∧
    alistLookup ((TaskScheduler.new.schedule_current_resume
        (LuaValue.function (some "boom")) []).2.resume_queue).2.lua.registry 0
      ≠ none := by
  exact ⟨rfl, rfl, rfl, by decide, by decide⟩

/-- C4 (amended): the two registry values of a task are released exactly
once by a successful resumption — whatever its argument source: caller
override, stored arguments, or elapsed time — and exactly once by a
cancellation, and an already-removed task releases nothing further (never
twice); but a resumption whose continuation raises an error releases
neither value — the task leaves the store with its registry entries
intact. -/
theorem c4_release_discipline :
    (∀ (s : TaskScheduler) (reference : TaskReference) (task : LuneTask),
       alistLookup s.tasks reference = some task →
       alistLookup s.lua.registry task.thread ≠ none →
       alistLookup (alistErase s.lua.registry task.thread) task.args ≠ none →
       (s.cancel_task reference).1 = Except.ok true ∧
       (s.cancel_task reference).2.lua.removedKeys
         = s.lua.removedKeys ++ [task.thread, task.args]) ∧
    (∀ (s : TaskScheduler) (reference : TaskReference) (task : LuneTask)
       (thread : LuaThreadObj) (storedArgs : Option (List LuaValue))
       (o : Option (List LuaValue)),
       alistLookup s.tasks reference = some task →
       alistLookup s.lua.registry task.thread = some (RegVal.thread thread) →
       alistLookup s.lua.registry task.args = some (RegVal.args storedArgs) →
       thread.raises = none →
       alistLookup (alistErase s.lua.registry task.thread) task.args ≠ none →
       (s.resume_task reference o).1 = Except.ok () ∧
       (s.resume_task reference o).2.lua.removedKeys
         = s.lua.removedKeys ++ [task.thread, task.args]) ∧
    (∀ (s : TaskScheduler) (reference : TaskReference) (task : LuneTask)
       (thread : LuaThreadObj) (storedArgs : Option (List LuaValue))
       (o : Option (List LuaValue)) (e : String),
       alistLookup s.tasks reference = some task →
       alistLookup s.lua.registry task.thread = some (RegVal.thread thread) →
       alistLookup s.lua.registry task.args = some (RegVal.args storedArgs) →
       thread.raises = some e →
       (s.resume_task reference o).1 = Except.error (Failure.luaError e) ∧
       (s.resume_task reference o).2.lua.removedKeys = s.lua.removedKeys ∧
       (s.resume_task reference o).2.lua.registry = s.lua.registry) ∧
    (∀ (s : TaskScheduler) (reference : TaskReference),
       ((s.cancel_task reference).2.cancel_task reference).1 = Except.ok false ∧
       ((s.cancel_task reference).2.cancel_task reference).2.lua.removedKeys
         = (s.cancel_task reference).2.lua.removedKeys ∧
       ((s.cancel_task reference).2.resume_task reference none).1 = Except.ok () ∧
       ((s.cancel_task reference).2.resume_task reference none).2.lua.removedKeys
         = (s.cancel_task reference).2.lua.removedKeys) := by
  refine ⟨?_, ?_, ?_, ?_⟩
  · intro s reference task h1 h2 h3
    exact cancel_task_hit_releases s reference task h1 h2 h3
  · intro s reference task thread storedArgs o h1 h2 h3 hra h4
    exact resume_task_release_ok s reference task thread storedArgs o h1 h2 h3 hra h4
  · intro s reference task thread storedArgs o e h1 h2 h3 hra
    exact resume_task_release_raise s reference task thread storedArgs o e h1 h2 h3 hra
  · intro s reference
    have hmiss : alistLookup (s.cancel_task reference).2.tasks reference = none := by
      rw [(cancel_task_effects s reference).1]
      exact alistLookup_erase_self s.tasks reference
    rw [cancel_task_miss (s.cancel_task reference).2 reference hmiss,
        resume_task_miss (s.cancel_task reference).2 reference none hmiss]
    exact ⟨rfl, rfl, rfl, rfl⟩

/-- C4, witness: a concrete scheduler holding one instant task — cancelling
it releases its thread key (1) and args key (0) exactly once each, and a
normal resumption with no caller override (the stored-arguments path)
succeeds and also releases exactly those two keys, once each. -/
theorem c4_witness :
    (((TaskScheduler.new.schedule_current_resume
        (LuaValue.function none) []).2.cancel_task
        { kind := TaskKind.instant, guid := 1 }).1 = Except.ok true ∧
     ((TaskScheduler.new.schedule_current_resume
        (LuaValue.function none) []).2.cancel_task
        { kind := TaskKind.instant, guid := 1 }).2.lua.removedKeys = [1, 0]) ∧
    (((TaskScheduler.new.schedule_current_resume
        (LuaValue.function none) []).2.resume_task
        { kind := TaskKind.instant, guid := 1 } none).1 = Except.ok () ∧
     ((TaskScheduler.new.schedule_current_resume
        (LuaValue.function none) []).2.resume_task
        { kind := TaskKind.instant, guid := 1 } none).2.lua.removedKeys = [1, 0]) := by
  have hcancel := c4_release_discipline.1
    (TaskScheduler.new.schedule_current_resume (LuaValue.function none) []).2
    { kind := TaskKind.instant, guid := 1 }
    { thread := 1, args := 0, queued_at := 0 } rfl (by decide) (by decide)
  have hresume := c4_release_discipline.2.1
    (TaskScheduler.new.schedule_current_resume (LuaValue.function none) []).2
    { kind := TaskKind.instant, guid := 1 }
    { thread := 1, args := 0, queued_at := 0 }
    { id := 0, raises := none } (some []) none rfl rfl rfl rfl (by decide)
  exact ⟨⟨hcancel.1, hcancel.2.trans rfl⟩, ⟨hresume.1, hresume.2.trans rfl⟩⟩

/-- Trace of stepping a non-empty Instant lane whose front task is stored:
exactly one resume event is recorded, with the source's argument priority. -/
theorem resume_next_queue_task_trace_instant (s : TaskScheduler)
    (r : TaskReference) (rest : List TaskReference) (o : Option (List LuaValue))
    (task : LuneTask) (thread : LuaThreadObj) (storedArgs : Option (List LuaValue))
    (hq : s.task_queue_instant = r :: rest)
    (h1 : alistLookup s.tasks r = some task)
    (h2 : alistLookup s.lua.registry task.thread = some (RegVal.thread thread))
    (h3 : alistLookup s.lua.registry task.args = some (RegVal.args storedArgs)) :
    (s.resume_next_queue_task TaskKind.instant o).2.lua.resumes
      = s.lua.resumes ++ [(thread.id,
          resumeArgsChoice o storedArgs (s.now - task.queued_at))] := by
  have hpop : s.pop_queue_front TaskKind.instant
      = .ok (some r, { s with task_queue_instant := rest }) := by
    unfold TaskScheduler.pop_queue_front
    rw [hq]
  have htr := resume_task_hit_trace { s with task_queue_instant := rest }
    r task thread storedArgs o h1 h2 h3
  unfold TaskScheduler.resume_next_queue_task
  rw [hpop]
  rcases hrt : TaskScheduler.resume_task { s with task_queue_instant := rest } r o
    with ⟨rr, s2⟩
  rw [hrt] at htr
  cases rr with
  | ok u => simp_all [hrt]
  | error f => cases f <;> simp_all [hrt]

/-! ### Claim C6 -/

/-- C6: a future that completes successfully has its task reference pushed
at the front of the Instant lane and resumed within the same step, with the
future's produced arguments as the override (falling back to the task's
stored arguments, then elapsed time, when the future produced none); in
particular a `schedule_delayed` task with an empty stored argument list is
resumed with that empty list, not with the elapsed time. -/
theorem c6_future_success_promotion :
    (∀ (s : TaskScheduler) (fref : TaskReference) (rest : List TaskFutureEntry)
       (args : Option (List LuaValue)) (task : LuneTask) (thread : LuaThreadObj)
       (storedArgs : Option (List LuaValue)),
       s.futures = { ref := fref, result := TaskFutureResultV.ok args } :: rest →
       alistLookup s.tasks fref = some task →
       alistLookup s.lua.registry task.thread = some (RegVal.thread thread) →
       alistLookup s.lua.registry task.args = some (RegVal.args storedArgs) →
       (s.resume_next_queue_future).2.futures = rest ∧
       (s.resume_next_queue_future).2.task_queue_instant = s.task_queue_instant ∧
       (s.resume_next_queue_future).2.tasks = alistErase s.tasks fref ∧
       (s.resume_next_queue_future).2.lua.resumes
         = s.lua.resumes ++ [(thread.id,
             resumeArgsChoice args storedArgs (s.now - task.queued_at))]) ∧
    ((((TaskScheduler.new.schedule_delayed 3 (LuaValue.function none)
        []).2.advanceTime 7).resume_queue).2.lua.resumes = [(0, [])] ∧
     resultIsTaskSuccessful ((((TaskScheduler.new.schedule_delayed 3
        (LuaValue.function none) []).2.advanceTime 7).resume_queue).1) = true ∧
     (((TaskScheduler.new.schedule_delayed 3 (LuaValue.function none)
        []).2.advanceTime 7).resume_queue).2.lua.resumes
       ≠ [(0, [LuaValue.number 7])]) := by
  constructor
  · intro s fref rest args task thread storedArgs hf h1 h2 h3
    have hred : s.resume_next_queue_future
        = TaskScheduler.resume_next_queue_task
            { s with futures := rest,
                     task_queue_instant := fref :: s.task_queue_instant }
            TaskKind.instant args := by
      unfold TaskScheduler.resume_next_queue_future
      rw [hf]
    have hcons := resume_next_queue_task_cons_instant
      { s with futures := rest,
               task_queue_instant := fref :: s.task_queue_instant }
      fref s.task_queue_instant args rfl
    have htrace := resume_next_queue_task_trace_instant
      { s with futures := rest,
               task_queue_instant := fref :: s.task_queue_instant }
      fref s.task_queue_instant args task thread storedArgs rfl h1 h2 h3
    rw [hred]
    exact ⟨hcons.2.2.2.1, hcons.2.1, hcons.1, htrace⟩
  · exact ⟨rfl, rfl, by decide⟩

/-- C6, witness: the promotion theorem applied to the concrete
`schedule_delayed(3, f, [])` scenario — the future produced no override, so
the stored empty argument list is used. -/
theorem c6_witness :
    ((((TaskScheduler.new.schedule_delayed 3 (LuaValue.function none)
        []).2.advanceTime 7).resume_next_queue_future).2.futures = []) ∧
    ((((TaskScheduler.new.schedule_delayed 3 (LuaValue.function none)
        []).2.advanceTime 7).resume_next_queue_future).2.lua.resumes
      = [(0, [])]) := by
  have h := c6_future_success_promotion.1
    ((TaskScheduler.new.schedule_delayed 3 (LuaValue.function none)
      []).2.advanceTime 7)
    { kind := TaskKind.future, guid := 1 } [] none
    { thread := 1, args := 0, queued_at := 0 }
    { id := 0, raises := none } (some []) rfl rfl rfl rfl
  exact ⟨h.1, h.2.2.2.trans rfl⟩

/-! ### Claim C7 -/

/-- C7: a future that resolves with a failure has its owning task cancelled
best-effort (the task leaves the store) and its continuation is never
resumed (the resume trace is unchanged); the step reports `TaskErrored`
with the future's error when the cancellation returns without error, and
with the cancellation's own error when the cancellation fails. -/
theorem c7_future_failure (s : TaskScheduler) (fref : TaskReference)
    (rest : List TaskFutureEntry) (e : String)
    (hf : s.futures = { ref := fref, result := TaskFutureResultV.err e } :: rest) :
    (s.resume_next_queue_future).2.lua.resumes = s.lua.resumes ∧
    (s.resume_next_queue_future).2.tasks = alistErase s.tasks fref ∧
    (∀ b s2, TaskScheduler.cancel_task { s with futures := rest } fref
        = (Except.ok b, s2) →
      (s.resume_next_queue_future).1
        = Except.ok (TaskSchedulerResult.taskErrored e s2.state)) ∧
    (∀ ce s2, TaskScheduler.cancel_task { s with futures := rest } fref
        = (Except.error (Failure.luaError ce), s2) →
      (s.resume_next_queue_future).1
        = Except.ok (TaskSchedulerResult.taskErrored ce s2.state)) := by
  have hred : s.resume_next_queue_future
      = (match TaskScheduler.cancel_task { s with futures := rest } fref with
         | (Except.error (Failure.luaError cancel_err), s2) =>
           (Except.ok (TaskSchedulerResult.taskErrored cancel_err s2.state), s2)
         | (Except.error (Failure.panicked m), s2) =>
           (Except.error (Failure.panicked m), s2)
         | (Except.ok _, s2) =>
           (Except.ok (TaskSchedulerResult.taskErrored e s2.state), s2)) := by
    unfold TaskScheduler.resume_next_queue_future
    rw [hf]
  have heff := cancel_task_effects { s with futures := rest } fref
  rw [hred]
  rcases hc : TaskScheduler.cancel_task { s with futures := rest } fref with ⟨rc, s2⟩
  rw [hc] at heff
  refine ⟨?_, ?_, ?_, ?_⟩
  · cases rc with
    | ok b => simpa using heff.2.2.2.2.2.2.2.2
    | error f => cases f <;> simpa using heff.2.2.2.2.2.2.2.2
  · cases rc with
    | ok b => simpa using heff.1
    | error f => cases f <;> simpa using heff.1
  · intro b s2' heq
    injection heq with heq1 heq2
    subst heq2
    cases rc with
    | ok bb => rfl
    | error f => cases heq1
  · intro ce s2' heq
    injection heq with heq1 heq2
    subst heq2
    cases rc with
    | ok bb => cases heq1
    | error f =>
      cases f with
      | luaError msg =>
        injection heq1 with hmsg
        injection hmsg with hmsg2
        subst hmsg2
        rfl
      | panicked m => cases heq1

/-- C7, witness: a future set holding one failed future whose owning task
is already gone — the best-effort cancellation returns `false` and the
step reports `TaskErrored` with the future's error, resuming nothing. -/
theorem c7_witness :
    (({ TaskScheduler.new with
        futures := [{ ref := { kind := TaskKind.future, guid := 1 },
                      result := TaskFutureResultV.err "bad" }] } :
        TaskScheduler).resume_next_queue_future).1
      = Except.ok (TaskSchedulerResult.taskErrored "bad"
          { exit_code := none, num_instant := 0, num_deferred := 0,
            num_future := 0, num_total := 0 }) ∧
    (({ TaskScheduler.new with
        futures := [{ ref := { kind := TaskKind.future, guid := 1 },
                      result := TaskFutureResultV.err "bad" }] } :
        TaskScheduler).resume_next_queue_future).2.lua.resumes = [] := by
  have h := c7_future_failure
    { TaskScheduler.new with
      futures := [{ ref := { kind := TaskKind.future, guid := 1 },
                    result := TaskFutureResultV.err "bad" }] }
    { kind := TaskKind.future, guid := 1 } [] "bad" rfl
  exact ⟨h.2.2.1 false TaskScheduler.new rfl, h.1.trans rfl⟩
